import Mathlib

/-!
Shallow embedding of the `lwcGoogleRecaptcha` Lightning Web Component
(src/force-app/main/default/lwc/lwcGoogleRecaptcha/lwcGoogleRecaptcha.js).

The component is a state machine driven by browser events.  We embed its
fields as a `ComponentState` record and each method as a pure state
transformer.  Asynchronous collaborators (the Apex calls `fetchBaseURL`,
`getRecaptchaSetting`, `verifyResponse`, and `setTimeout`) are modelled by
splitting each call site into the synchronous part (which may issue the
call, returned as an explicit effect value) and the `.then` / `.catch`
continuations (separate functions applied to the resolution value).
JavaScript string truthiness (`undefined`/`null`/`""` are falsy) is
modelled by `jsTruthyStr` over `Option String`; `console.error` output is
returned as an explicit log value.
-/

namespace LwcGoogleRecaptcha

/-- JavaScript truthiness of a possibly-absent string: `undefined`/`null`
(`none`) and the empty string are falsy, every other string truthy. -/
def jsTruthyStr : Option String → Bool
  | none => false
  | some s => s != ""

/-- JavaScript `a || b` for a possibly-absent string `a` and a string
default `b` (used for `this.requiredMessage || "Please complete the captcha"`
and `this.frameTitle || "I'm not a robot captcha"`). -/
def jsStrOr (a : Option String) (b : String) : String :=
  match a with
  | none => b
  | some s => if s = "" then b else s

/-- The component's fields, in source order.  Defaults mirror the field
initializers of the class (`_isHuman = false`, `required = false`,
`requiredOnce = false`, `allowedURLs = []`, `recaptchaResponse = ""`,
`siteKey = null`, `boundMessageHandler = null`). -/
structure ComponentState where
  _isHuman : Bool := false
  googleRecaptchaSettingName : Option String := none
  originPageURL : Option String := none
  required : Bool := false
  requiredMessage : Option String := none
  requiredOnce : Bool := false
  frameTitle : Option String := none
  flowGuid : Option String := none
  allowedURLs : List String := []
  recaptchaResponse : String := ""
  siteKey : Option String := none
  boundMessageHandler : Bool := false
  deriving Repr, DecidableEq

/-- The `isHuman` getter (`get isHuman() { return this._isHuman; }`). -/
def isHumanGet (s : ComponentState) : Bool :=
  s._isHuman

/-- The `isHuman` setter (`set isHuman(value) { this._isHuman = value; }`). -/
def isHumanSet (s : ComponentState) (value : Bool) : ComponentState :=
  { s with _isHuman := value }

/-- `get shouldDisplayCaptcha()`: false without a (truthy) site key; with
one, `!_isHuman` when `requiredOnce`, else true. -/
def shouldDisplayCaptcha (s : ComponentState) : Bool :=
  if !(jsTruthyStr s.siteKey) then false
  else if s.requiredOnce then !s._isHuman
  else true

/-- The captcha iframe element (`[data-id="captchaFrame"]`): the DOM state
`handleMessage` can resize. -/
structure Iframe where
  height : String := ""
  width : String := ""
  deriving Repr, DecidableEq

/-- A `postMessage` event as `handleMessage` reads it: `event.origin`,
`event.data[0]` (the event name) and `event.data[1]` (the payload). -/
structure MessageEvent where
  origin : String
  eventName : String
  payload : String
  deriving Repr, DecidableEq

/-- The parameter object `handleUnlock` passes to `verifyResponse`. -/
structure VerifyParams where
  recaptchaResponse : String
  recaptchaSettingName : Option String
  flowInterviewGuid : Option String
  deriving Repr, DecidableEq

/-- `isAllowedOrigin(origin)`: false on an empty allow list, else
membership in `allowedURLs`. -/
def isAllowedOrigin (s : ComponentState) (origin : String) : Bool :=
  if s.allowedURLs.isEmpty then false
  else s.allowedURLs.contains origin

/-- `handleUnlock(response)` up to the `verifyResponse` call: stores the
token in `recaptchaResponse` and issues the call with
`{recaptchaResponse, recaptchaSettingName, flowInterviewGuid}`.  The
call's resolution is modelled by `verifyResponseThen` / `verifyResponseCatch`. -/
def handleUnlock (s : ComponentState) (response : String) :
    ComponentState × VerifyParams :=
  let s1 := { s with recaptchaResponse := response }
  (s1,
   { recaptchaResponse := s1.recaptchaResponse,
     recaptchaSettingName := s.googleRecaptchaSettingName,
     flowInterviewGuid := s.flowGuid })

/-- The `.then` of `verifyResponse`: only a strict boolean `true` result
(`result === true`; `none` models a null result) grants verification.
When `requiredOnce` holds, the grant is deferred: the function returns the
`setTimeout` delay in milliseconds and `timerCallback` applies the timer's
body; otherwise `_isHuman` is set immediately. -/
def verifyResponseThen (s : ComponentState) (result : Option Bool) :
    ComponentState × Option Nat :=
  if result = some true then
    if s.requiredOnce then (s, some 500)
    else ({ s with _isHuman := true }, none)
  else (s, none)

/-- The body of the `setTimeout` scheduled by `verifyResponseThen`. -/
def timerCallback (s : ComponentState) : ComponentState :=
  { s with _isHuman := true }

/-- The `.catch` of `verifyResponse`: logs and changes nothing. -/
def verifyResponseCatch (s : ComponentState) (error : String) :
    ComponentState × String :=
  (s, "ERROR verifying reCAPTCHA:" ++ error)

/-- `handleMessage(event)`: origin gate, then the iframe lookup (the
`Option Iframe` argument models the `querySelector` result), then the
event-name switch.  Returns the new component state, the new iframe state,
and the `verifyResponse` call issued by the `Unlock` branch, if any. -/
def handleMessage (s : ComponentState) (iframe : Option Iframe)
    (event : MessageEvent) :
    ComponentState × Option Iframe × Option VerifyParams :=
  if !(isAllowedOrigin s event.origin) then (s, iframe, none)
  else
    match iframe with
    | none => (s, none, none)
    | some frame =>
      if event.eventName = "setHeight" then
        (s, some { frame with height := event.payload }, none)
      else if event.eventName = "setWidth" then
        (s, some { frame with width := event.payload }, none)
      else if event.eventName = "Lock" then
        ({ s with _isHuman := false }, some frame, none)
      else if event.eventName = "Unlock" then
        let r := handleUnlock s event.payload
        (r.1, some frame, some r.2)
      else (s, some frame, none)

/-- The synchronous effects of `initializeComponent`: the local allow list
captured by the `fetchBaseURL` then-callback, the `getRecaptchaSetting`
call issued (with its `settingName`) if any, and the `console.error`
output. -/
structure InitEffects where
  localAllowedURLs : List String
  getSettingCall : Option String
  logs : List String
  deriving Repr, DecidableEq

/-- `initializeComponent()`: resets `_isHuman` unless `requiredOnce`,
parses `originPageURL` (comma split, each entry trimmed) into a local
list, always issues `fetchBaseURL()` (resolution: `fetchBaseURLThen`,
capturing the local list), and issues `getRecaptchaSetting` when a
(truthy) setting name is configured, logging an error otherwise. -/
def initializeComponent (s : ComponentState) :
    ComponentState × InitEffects :=
  let s1 := if !s.requiredOnce then { s with _isHuman := false } else s
  let localURLs : List String :=
    match s.originPageURL with
    | none => []
    | some u =>
      if u = "" then []
      else (u.splitOn ",").map (fun url => url.trim)
  (s1,
   { localAllowedURLs := localURLs,
     getSettingCall :=
       if jsTruthyStr s.googleRecaptchaSettingName then
         s.googleRecaptchaSettingName
       else none,
     logs :=
       if jsTruthyStr s.googleRecaptchaSettingName then []
       else ["googleRecaptchaSettingName is required but not provided"] })

/-- The `.then` of `fetchBaseURL`: `this.allowedURLs = [...allowedURLs,
...records]`, where `localURLs` is the local list captured at the call
site. -/
def fetchBaseURLThen (s : ComponentState) (localURLs records : List String) :
    ComponentState :=
  { s with allowedURLs := localURLs ++ records }

/-- The `.catch` of `fetchBaseURL`: logs and changes nothing. -/
def fetchBaseURLCatch (s : ComponentState) (error : String) :
    ComponentState × String :=
  (s, "ERROR fetching base URLs:" ++ error)

/-- The record resolved by `getRecaptchaSetting`. -/
structure RecaptchaSetting where
  siteKey : Option String
  deriving Repr, DecidableEq

/-- The `.then` of `getRecaptchaSetting`: stores the site key when
`result && result.siteKey` is truthy, else logs. -/
def getRecaptchaSettingThen (s : ComponentState)
    (result : Option RecaptchaSetting) : ComponentState × List String :=
  match result with
  | none => (s, ["No reCAPTCHA settings found for: "])
  | some r =>
    if jsTruthyStr r.siteKey then ({ s with siteKey := r.siteKey }, [])
    else (s, ["No reCAPTCHA settings found for: "])

/-- The `.catch` of `getRecaptchaSetting`: logs and changes nothing. -/
def getRecaptchaSettingCatch (s : ComponentState) (error : String) :
    ComponentState × String :=
  (s, "ERROR fetching reCAPTCHA settings:" ++ error)

/-- `setupMessageListener()`: binds and stores the message handler (the
`addEventListener` registration itself is outside the component state). -/
def setupMessageListener (s : ComponentState) : ComponentState :=
  { s with boundMessageHandler := true }

/-- `removeMessageListener()`: state unchanged; the boolean reports
whether `removeEventListener` was called. -/
def removeMessageListener (s : ComponentState) : ComponentState × Bool :=
  (s, s.boundMessageHandler)

/-- `connectedCallback()`: `initializeComponent` then
`setupMessageListener`. -/
def connectedCallback (s : ComponentState) : ComponentState × InitEffects :=
  let r := initializeComponent s
  (setupMessageListener r.1, r.2)

/-- `disconnectedCallback()`: `removeMessageListener`. -/
def disconnectedCallback (s : ComponentState) : ComponentState × Bool :=
  removeMessageListener s

/-- The object `validate()` returns: `{isValid}` with an optional
`errorMessage`. -/
structure ValidateResult where
  isValid : Bool
  errorMessage : Option String := none
  deriving Repr, DecidableEq

/-- `validate()` as a state transformer: the method body performs no
assignment, so the state passes through unchanged next to the returned
object. -/
def validate (s : ComponentState) : ComponentState × ValidateResult :=
  let errorMessage := jsStrOr s.requiredMessage "Please complete the captcha"
  (s,
   if s.required && !s._isHuman then
     { isValid := false, errorMessage := some errorMessage }
   else
     { isValid := true })

/-! Sample states and events used by the concrete instantiations below. -/

/-- A sample allow-listed origin. -/
def trusted : String := "https://trusted.example"

/-- A sample state that allow-lists `trusted` (one-shot mode off). -/
def stateBasic : ComponentState :=
  { _isHuman := true, allowedURLs := [trusted] }

/-- A sample state in one-shot (`requiredOnce`) mode, not yet verified. -/
def stateOnce : ComponentState :=
  { allowedURLs := [trusted], requiredOnce := true,
    googleRecaptchaSettingName := some "Setting1", flowGuid := some "flow-1" }

/-- A sample state in one-shot mode, already verified. -/
def stateOnceDone : ComponentState :=
  { _isHuman := true, requiredOnce := true, allowedURLs := [trusted] }

/-- A sample `Lock` message from the allow-listed origin. -/
def evLock : MessageEvent :=
  { origin := trusted, eventName := "Lock", payload := "" }

/-- A sample `Unlock` message from the allow-listed origin. -/
def evUnlock : MessageEvent :=
  { origin := trusted, eventName := "Unlock", payload := "tok-123" }

/-- C1: a message whose origin is not a member of the allow list
`allowedURLs` leaves the component state, the iframe (its dimensions
included) and the pending-call state completely unchanged, for every event
name and payload. -/
theorem handleMessage_unlisted_origin_noop
    (s : ComponentState) (iframe : Option Iframe) (event : MessageEvent)
    (h : event.origin ∉ s.allowedURLs) :
    handleMessage s iframe event = (s, iframe, none) := by
  have hc : isAllowedOrigin s event.origin = false := by
    unfold isAllowedOrigin
    split
    · rfl
    · simpa using h
  unfold handleMessage
  rw [hc]
  rfl

/-- C1 witness: a `Lock` message from an origin off the allow list is a
no-op. -/
theorem handleMessage_unlisted_origin_noop_witness :
    handleMessage stateBasic none
        { origin := "https://evil.example", eventName := "Lock", payload := "" }
      = (stateBasic, none, none) :=
  handleMessage_unlisted_origin_noop stateBasic none
    { origin := "https://evil.example", eventName := "Lock", payload := "" }
    (by decide)

/-- C2: `validate()` returns `isValid := false` carrying `requiredMessage`
when set (non-empty) and the default `"Please complete the captcha"`
otherwise, exactly when `required` is true and `_isHuman` is false; in
every other state it returns `isValid := true` with no error message. -/
theorem validate_spec (s : ComponentState) :
    (s.required = true → s._isHuman = false →
      (validate s).2 =
        { isValid := false,
          errorMessage :=
            some (jsStrOr s.requiredMessage "Please complete the captcha") } ∧
      (∀ m, s.requiredMessage = some m → m ≠ "" →
        (validate s).2.errorMessage = some m) ∧
      (s.requiredMessage = none →
        (validate s).2.errorMessage = some "Please complete the captcha")) ∧
    (¬(s.required = true ∧ s._isHuman = false) →
      (validate s).2 = { isValid := true, errorMessage := none }) := by
  constructor
  · intro hr hh
    have hv : (validate s).2 =
        { isValid := false,
          errorMessage :=
            some (jsStrOr s.requiredMessage "Please complete the captcha") } := by
      simp [validate, hr, hh]
    refine ⟨hv, ?_, ?_⟩
    · intro m hm hne
      rw [hv]
      simp [jsStrOr, hm, hne]
    · intro hm
      rw [hv]
      simp [jsStrOr, hm]
  · intro hcon
    cases hr : s.required with
    | false => simp [validate, hr]
    | true =>
      cases hh : s._isHuman with
      | false => exact absurd ⟨hr, hh⟩ hcon
      | true => simp [validate, hr, hh]

/-- C2 witness: required, unverified, no configured message: validation
fails with the default message. -/
theorem validate_spec_witness :
    (validate { required := true }).2 =
      { isValid := false, errorMessage := some "Please complete the captcha" } :=
  ((validate_spec { required := true }).1 rfl rfl).1

/-- C3: processing a `Lock` message from an allowed origin (the iframe is
present, so the message reaches the event switch) sets `_isHuman` to
false, whatever its prior value. -/
theorem lock_clears_isHuman
    (s : ComponentState) (frame : Iframe) (event : MessageEvent)
    (h1 : isAllowedOrigin s event.origin = true)
    (h2 : event.eventName = "Lock") :
    (handleMessage s (some frame) event).1._isHuman = false := by
  simp [handleMessage, h1, h2]

/-- C3 witness: a `Lock` message from the allow-listed origin clears a
prior `_isHuman = true`. -/
theorem lock_clears_isHuman_witness :
    (handleMessage stateBasic (some {}) evLock).1._isHuman = false :=
  lock_clears_isHuman stateBasic {} evLock (by decide) rfl

/-- C4: an `Unlock` message from an allowed origin issues a
`verifyResponse` call carrying the token; when that call resolves to the
boolean `true`, `_isHuman` becomes true immediately if `requiredOnce` is
false, and otherwise only through the timer: at resolution `_isHuman` is
still unchanged, a 500 ms timer is scheduled, and its callback sets
`_isHuman` to true. -/
theorem unlock_verified_true
    (s : ComponentState) (frame : Iframe) (event : MessageEvent)
    (h1 : isAllowedOrigin s event.origin = true)
    (h2 : event.eventName = "Unlock") :
    (handleMessage s (some frame) event).2.2 =
      some { recaptchaResponse := event.payload,
             recaptchaSettingName := s.googleRecaptchaSettingName,
             flowInterviewGuid := s.flowGuid } ∧
    (s.requiredOnce = false →
      (verifyResponseThen (handleMessage s (some frame) event).1
          (some true)).1._isHuman = true ∧
      (verifyResponseThen (handleMessage s (some frame) event).1
          (some true)).2 = none) ∧
    (s.requiredOnce = true →
      (verifyResponseThen (handleMessage s (some frame) event).1
          (some true)).1._isHuman = s._isHuman ∧
      (verifyResponseThen (handleMessage s (some frame) event).1
          (some true)).2 = some 500 ∧
      (timerCallback (verifyResponseThen (handleMessage s (some frame) event).1
          (some true)).1)._isHuman = true) := by
  refine ⟨?_, fun hro => ⟨?_, ?_⟩, fun hro => ⟨?_, ?_, ?_⟩⟩ <;>
    simp [handleMessage, handleUnlock, verifyResponseThen, timerCallback,
      h1, h2, *]

/-- C4 witness: in `requiredOnce` mode, the `Unlock` of `evUnlock`
issues the verification call, leaves `_isHuman` false at resolution,
schedules the 500 ms timer, and the timer callback sets `_isHuman`. -/
theorem unlock_verified_true_witness :
    (handleMessage stateOnce (some {}) evUnlock).2.2 =
      some { recaptchaResponse := "tok-123",
             recaptchaSettingName := some "Setting1",
             flowInterviewGuid := some "flow-1" } ∧
    (verifyResponseThen (handleMessage stateOnce (some {}) evUnlock).1
        (some true)).1._isHuman = false ∧
    (verifyResponseThen (handleMessage stateOnce (some {}) evUnlock).1
        (some true)).2 = some 500 ∧
    (timerCallback (verifyResponseThen (handleMessage stateOnce (some {}) evUnlock).1
        (some true)).1)._isHuman = true := by
  have h := unlock_verified_true stateOnce {} evUnlock (by decide) rfl
  exact ⟨h.1, (h.2.2 rfl).1, (h.2.2 rfl).2.1, (h.2.2 rfl).2.2⟩

/-- C5: when the `verifyResponse` call made by `handleUnlock` rejects, the
catch handler returns the state unchanged — in particular `_isHuman` keeps
its value from before the `Unlock` — and only produces a log line, the
handler being a total function (no exception propagates). -/
theorem unlock_verify_rejected_noop
    (s : ComponentState) (response error : String) :
    (verifyResponseCatch (handleUnlock s response).1 error).1 =
      (handleUnlock s response).1 ∧
    (verifyResponseCatch (handleUnlock s response).1 error).1._isHuman =
      s._isHuman :=
  ⟨rfl, rfl⟩

/-- C6: on mount, `initializeComponent` resets `_isHuman` to false when
`requiredOnce` is false, and preserves the prior value (a prior `true`
included) when `requiredOnce` is true. -/
theorem initializeComponent_isHuman (s : ComponentState) :
    (s.requiredOnce = false → (initializeComponent s).1._isHuman = false) ∧
    (s.requiredOnce = true → (initializeComponent s).1._isHuman = s._isHuman) := by
  constructor <;> intro h <;> simp [initializeComponent, h]

/-- C6 witness: re-mounting with `requiredOnce = false` drops a prior
verification; with `requiredOnce = true` it survives. -/
theorem initializeComponent_isHuman_witness :
    (initializeComponent { _isHuman := true }).1._isHuman = false ∧
    (initializeComponent stateOnceDone).1._isHuman = true :=
  ⟨(initializeComponent_isHuman { _isHuman := true }).1 rfl,
   (initializeComponent_isHuman stateOnceDone).2 rfl⟩

/-- C7: once `fetchBaseURL` resolves with `records`, `allowedURLs` is the
comma-split, trimmed entries of `originPageURL` followed in order by
`records`; with no configured `originPageURL` it is `records` alone. -/
theorem allowedURLs_after_fetch (s : ComponentState) (records : List String) :
    (s.originPageURL = none →
      (fetchBaseURLThen (initializeComponent s).1
          (initializeComponent s).2.localAllowedURLs records).allowedURLs =
        records) ∧
    (∀ u, s.originPageURL = some u → u ≠ "" →
      (fetchBaseURLThen (initializeComponent s).1
          (initializeComponent s).2.localAllowedURLs records).allowedURLs =
        (u.splitOn ",").map (fun url => url.trim) ++ records) := by
  constructor
  · intro h
    simp [initializeComponent, fetchBaseURLThen, h]
  · intro u h hne
    simp [initializeComponent, fetchBaseURLThen, h, hne]

/-- C7 witness: a two-entry `originPageURL` is split, trimmed and placed
before the server-provided record. -/
theorem allowedURLs_after_fetch_witness :
    (fetchBaseURLThen
        (initializeComponent { originPageURL := some "https://a.example, https://b.example" }).1
        (initializeComponent { originPageURL := some "https://a.example, https://b.example" }).2.localAllowedURLs
        ["https://c.example"]).allowedURLs =
      ("https://a.example, https://b.example".splitOn ",").map (fun url => url.trim) ++
        ["https://c.example"] :=
  (allowedURLs_after_fetch
      { originPageURL := some "https://a.example, https://b.example" }
      ["https://c.example"]).2
    "https://a.example, https://b.example" rfl (by decide)

/-- C8: `validate()` is pure: it returns the component state unchanged in
every field, and calling it again on the state it returns yields the same
result. -/
theorem validate_pure (s : ComponentState) :
    (validate s).1 = s ∧ (validate (validate s).1).2 = (validate s).2 :=
  ⟨rfl, rfl⟩

/-- C9 counterexample: `initializeComponent` — which is neither the message
handler nor the resolution of the server verification call — flips a prior
`_isHuman = true` to false when `requiredOnce` is false, so `_isHuman` is
not mutable only by those two operations. -/
theorem isHuman_mutators_cex :
    ({ _isHuman := true } : ComponentState)._isHuman = true ∧
    (initializeComponent { _isHuman := true }).1._isHuman = false :=
  ⟨rfl, rfl⟩

/-- C9 (amended): `_isHuman` is changed only by the message handler's
`Lock` branch, by the resolution of the server verification call
(immediately, or through its 500 ms timer), by the mount-time reset in
`initializeComponent` when `requiredOnce` is false, and by the public
`isHuman` setter; every other operation of the component leaves it
unchanged. -/
theorem isHuman_mutators
    (s : ComponentState) (iframe : Option Iframe) (event : MessageEvent)
    (localURLs records : List String) (response error : String)
    (setting : Option RecaptchaSetting) (result : Option Bool) (v : Bool) :
    ((validate s).1._isHuman = s._isHuman) ∧
    ((fetchBaseURLThen s localURLs records)._isHuman = s._isHuman) ∧
    ((fetchBaseURLCatch s error).1._isHuman = s._isHuman) ∧
    ((getRecaptchaSettingThen s setting).1._isHuman = s._isHuman) ∧
    ((getRecaptchaSettingCatch s error).1._isHuman = s._isHuman) ∧
    ((setupMessageListener s)._isHuman = s._isHuman) ∧
    ((removeMessageListener s).1._isHuman = s._isHuman) ∧
    ((disconnectedCallback s).1._isHuman = s._isHuman) ∧
    ((handleUnlock s response).1._isHuman = s._isHuman) ∧
    ((verifyResponseCatch s error).1._isHuman = s._isHuman) ∧
    (event.eventName ≠ "Lock" →
      (handleMessage s iframe event).1._isHuman = s._isHuman) ∧
    ((initializeComponent s).1._isHuman =
      if s.requiredOnce then s._isHuman else false) ∧
    ((connectedCallback s).1._isHuman =
      if s.requiredOnce then s._isHuman else false) ∧
    ((isHumanSet s v)._isHuman = v) ∧
    ((verifyResponseThen s result).1._isHuman =
      if result = some true ∧ s.requiredOnce = false then true
      else s._isHuman) ∧
    ((timerCallback s)._isHuman = true) := by
  refine ⟨rfl, rfl, rfl, ?_, rfl, rfl, rfl, rfl, rfl, rfl, ?_, ?_, ?_, rfl, ?_, rfl⟩
  · cases setting with
    | none => rfl
    | some r =>
      by_cases h : jsTruthyStr r.siteKey <;> simp [getRecaptchaSettingThen, h]
  · intro hne
    rcases ha : isAllowedOrigin s event.origin with _ | _
    · simp [handleMessage, ha]
    · cases iframe with
      | none => simp [handleMessage, ha]
      | some frame =>
        by_cases e1 : event.eventName = "setHeight" <;>
        by_cases e2 : event.eventName = "setWidth" <;>
        by_cases e4 : event.eventName = "Unlock" <;>
          simp [handleMessage, handleUnlock, ha, e1, e2, e4, hne]
  · cases h : s.requiredOnce <;> simp [initializeComponent, h]
  · cases h : s.requiredOnce <;>
      simp [connectedCallback, initializeComponent, setupMessageListener, h]
  · by_cases hr : result = some true <;> cases h : s.requiredOnce <;>
      simp [verifyResponseThen, hr, h]

/-- C9 (amended) witness: a `setHeight` message from the allow-listed
origin leaves a prior `_isHuman = true` intact. -/
theorem isHuman_mutators_witness :
    (handleMessage stateBasic (some {})
        { origin := trusted, eventName := "setHeight", payload := "20" }).1._isHuman =
      true := by
  have h := isHuman_mutators stateBasic (some {})
    { origin := trusted, eventName := "setHeight", payload := "20" }
    [] [] "" "" none none true
  exact h.2.2.2.2.2.2.2.2.2.2.1 (by decide)

/-- C10: with the captcha iframe absent from the rendered template,
`handleMessage` changes nothing — state, iframe and pending call — for
every origin, event name (`Lock` and `Unlock` included) and payload; and
the iframe is indeed absent in the cited situations, `shouldDisplayCaptcha`
being false when no site key is set and when `requiredOnce` holds with
`_isHuman` already true. -/
theorem handleMessage_no_iframe_noop (s : ComponentState) (event : MessageEvent) :
    handleMessage s none event = (s, none, none) ∧
    (s.siteKey = none → shouldDisplayCaptcha s = false) ∧
    (s.requiredOnce = true → s._isHuman = true → shouldDisplayCaptcha s = false) := by
  refine ⟨?_, ?_, ?_⟩
  · unfold handleMessage
    split <;> rfl
  · intro h
    simp [shouldDisplayCaptcha, jsTruthyStr, h]
  · intro h1 h2
    unfold shouldDisplayCaptcha
    split
    · rfl
    · simp [h1, h2]

/-- C10 witness: in `requiredOnce` mode with `_isHuman` already true, the
captcha is not displayed, and a `Lock` message from the allow-listed
origin with no iframe present changes nothing. -/
theorem handleMessage_no_iframe_noop_witness :
    handleMessage stateOnceDone none evLock = (stateOnceDone, none, none) ∧
    shouldDisplayCaptcha stateOnceDone = false := by
  have h := handleMessage_no_iframe_noop stateOnceDone evLock
  exact ⟨h.1, h.2.2 rfl rfl⟩

end LwcGoogleRecaptcha
